import Mathlib

/-!
Shallow embedding of the RabbitMQ client layer of the `tpf` repository
(`src/rabbitmq/types.py`, `client.py`, `connection_manager.py`,
`setup_helper.py`).  Callback-driven broker interactions are modelled as
traces of channel operations; exceptions are modelled as explicit error
values.
-/

namespace TPF

/-- Exchange types from `pika.exchange_type.ExchangeType` (the code only ever
uses `direct` as the default). -/
inductive ExchangeType
  | direct
  | fanout
  | headers
  | topic
  deriving DecidableEq, Repr

/-- Python exceptions that the embedded code can raise. -/
inductive PyError
  | attributeError (msg : String)
  | missingPublisherAddressError (msg : String)
  | invalidFormatError (msg : String)
  | userException (msg : String)
  deriving DecidableEq, Repr

/-- The `Address` dataclass of `src/rabbitmq/types.py`.  Fields that default
to Python `None` are `Option`s. -/
structure Address where
  queue : Option String := none
  routing_key : Option String := none
  exchange : String := ""
  exchange_type : ExchangeType := ExchangeType.direct
  deriving DecidableEq, Repr

/-- `Address.check_attributes` (types.py lines 17-22): raises
`AttributeError` when `queue` is `None`; otherwise, when `routing_key` is
`None`, fills it from `queue`.  The (possibly updated) address is returned. -/
def Address.check_attributes (a : Address) : Except PyError Address :=
  match a.queue with
  | none => Except.error (PyError.attributeError "Missing `queue` attribute")
  | some q =>
    match a.routing_key with
    | none => Except.ok { a with routing_key := some q }
    | some _ => Except.ok a

/-- `Address.is_default_exchange` (types.py line 24-25). -/
def Address.is_default_exchange (a : Address) : Bool :=
  a.exchange = ""

/-- `pika.spec.Basic.Deliver`: only the delivery tag is used by the code. -/
structure BasicDeliver where
  delivery_tag : Nat
  deriving DecidableEq, Repr

/-- `pika.spec.BasicProperties`: the fields the code sets. -/
structure BasicProperties where
  app_id : String := ""
  content_type : String := ""
  deriving DecidableEq, Repr

/-- The `MessageMetadata` dataclass of `src/rabbitmq/types.py`. -/
structure MessageMetadata where
  basic_deliver : BasicDeliver
  properties : BasicProperties
  deriving DecidableEq, Repr

/-- One operation performed on the shared pika channel / connection /
event loop.  Arguments mirror exactly what the Python call sites pass
(`Option` where the passed attribute may be Python `None`). -/
inductive ChannelOp
  | exchange_declare (exchange : String) (ty : ExchangeType)
  | queue_declare (queue : Option String)
  | queue_bind (queue : Option String) (exchange : String) (routing_key : Option String)
  | basic_qos (prefetch_count : Nat)
  | basic_consume (queue : Option String)
  | basic_publish (exchange : String) (routing_key : Option String) (body : String)
  | basic_cancel (consumer_tag : String)
  | channel_close
  | connection_close
  | loop_stop
  deriving DecidableEq, Repr

/-- The `Client` dataclass of `src/rabbitmq/client.py`.  The user callbacks
`on_message` / `on_message_error` are opaque user code; the embedding only
records whether they are registered (`None` vs not), and takes the handler
behaviour as an oracle where needed. -/
structure Client where
  subscriber_address : Option Address := none
  publisher_address : Option Address := none
  has_on_message : Bool := false
  has_on_message_error : Bool := false
  parse_json : Bool := true
  prefetch_count : Nat := 1
  deriving DecidableEq, Repr

/-- `Client.publish` (client.py lines 107-121), as the trace of channel
operations it performs paired with the exception it raises, if any.
The missing-address check comes first; then the debug log evaluates
`self.subscriber_address.queue`, which raises `AttributeError` when
`subscriber_address` is `None`; only then is `basic_publish` reached. -/
def Client.publish (c : Client) (message : String) : List ChannelOp × Option PyError :=
  match c.publisher_address with
  | none =>
    ([], some (PyError.missingPublisherAddressError
        "Cannot publish messages without a publisher address"))
  | some pa =>
    match c.subscriber_address with
    | none =>
      ([], some (PyError.attributeError
          "NoneType object has no attribute queue"))
    | some _ =>
      ([ChannelOp.basic_publish pa.exchange pa.routing_key message], none)

/-- The setup cascade of `SetupHelper._setup_address` → `_setup_exchange` →
`_setup_queue` → `_setup_routing_key` → `_setup_qos` →
`_setup_message_callback` (setup_helper.py lines 89-163) for one
`ClientConfigContainer`, assuming every broker completion callback fires,
as the trace of channel operations issued in order.  A `None` address
returns immediately; `check_attributes` runs before any channel call, so
its exception aborts the cascade with an empty trace. -/
def setup_address_ops (addr : Option Address) (is_subscriber : Bool)
    (prefetch_count : Nat) : Except PyError (List ChannelOp) :=
  match addr with
  | none => Except.ok []
  | some a =>
    match a.check_attributes with
    | Except.error e => Except.error e
    | Except.ok v =>
      Except.ok
        ((if v.is_default_exchange then []
          else [ChannelOp.exchange_declare v.exchange v.exchange_type])
         ++ [ChannelOp.queue_declare v.queue]
         ++ (if v.is_default_exchange then []
             else [ChannelOp.queue_bind v.queue v.exchange v.routing_key])
         ++ (if is_subscriber then
               [ChannelOp.basic_qos prefetch_count, ChannelOp.basic_consume v.queue]
             else []))

/-- What the consumer callback does with one inbound delivery. -/
inductive ConsumerAction
  | ack (delivery_tag : Nat)
  | dispatch (body : String) (metadata : MessageMetadata)
  deriving DecidableEq, Repr

/-- `acknowledge_and_forward`, the `on_message_callback` installed by
`SetupHelper._setup_message_callback` (setup_helper.py lines 144-163):
`basic_ack` with the delivery tag, then build the metadata, then hand body
and metadata to `Client.on_message_wrapper`. -/
def acknowledge_and_forward (basic_deliver : BasicDeliver)
    (properties : BasicProperties) (body : String) : List ConsumerAction :=
  [ConsumerAction.ack basic_deliver.delivery_tag,
   ConsumerAction.dispatch body
     { basic_deliver := basic_deliver, properties := properties }]

/-- The teardown-relevant state of a `SetupHelper`: the recorded consumer
tags, the `_consumer_tags_closed` counter and the trace of close-side
channel/connection/loop operations performed so far. -/
structure TearDownState where
  consumer_tags : List String
  consumer_tags_closed : Nat
  ops : List ChannelOp
  deriving DecidableEq, Repr

/-- The close sequence run once all clients have stopped:
`self._channel.close(); self._connection.close();
self._connection.ioloop.stop()`. -/
def close_sequence : List ChannelOp :=
  [ChannelOp.channel_close, ChannelOp.connection_close, ChannelOp.loop_stop]

/-- `SetupHelper._close_channel_if_all_clients_stopped` (setup_helper.py
lines 165-178): increment `_consumer_tags_closed`; if it is still below
`len(_consumer_tags)` do nothing more, otherwise run the close sequence. -/
def close_channel_if_all_clients_stopped (s : TearDownState) : TearDownState :=
  let s' : TearDownState := { s with consumer_tags_closed := s.consumer_tags_closed + 1 }
  if s'.consumer_tags_closed < s'.consumer_tags.length then s'
  else { s' with ops := s'.ops ++ close_sequence }

/-- `SetupHelper.tear_down` (setup_helper.py lines 180-186): one
`basic_cancel` per recorded consumer tag, each with
`_close_channel_if_all_clients_stopped` as completion callback. -/
def tear_down_cancels (tags : List String) : List ChannelOp :=
  tags.map ChannelOp.basic_cancel

/-- Delivery of cancel-completion events to the shared callback.  Each
event carries the tag whose cancellation completed; the callback ignores
its frame argument (`_`), so the event payload is discarded, which is
exactly why completion order cannot matter.  The broker schedules one
completion per `basic_cancel` issued by `tear_down`, so a run of the real
system processes one event per recorded tag (and none when no cancel was
issued). -/
def run_completions (s : TearDownState) (events : List String) : TearDownState :=
  match events with
  | [] => s
  | _ :: rest => run_completions (close_channel_if_all_clients_stopped s) rest

/-- The initial teardown state: tags recorded during setup, counter `0`
(field initializer `_consumer_tags_closed: int = 0`), nothing closed. -/
def initial_teardown_state (tags : List String) : TearDownState :=
  { consumer_tags := tags, consumer_tags_closed := 0, ops := [] }

/-- A pika `AsyncioConnection` object, reduced to an identity and its
`is_open` flag. -/
structure PikaConnection where
  id : Nat
  is_open : Bool
  deriving DecidableEq, Repr

/-- Observable effect of one `get_connection` call: either the
`on_open_callback` was invoked immediately with the existing connection
object, or a new `AsyncioConnection` was constructed (with the callback
registered as its open-completion callback). -/
inductive GetConnectionEffect
  | reused (conn : PikaConnection)
  | created (conn : PikaConnection)
  deriving DecidableEq, Repr

/-- `ConnectionManager.get_connection` (connection_manager.py lines 56-69).
`state` is the class attribute `__connection` (`None` or an object);
`fresh` is the connection object the `AsyncioConnection(...)` constructor
would produce.  The source tests
`if cls.__connection is not None and not cls.__connection.is_open`
and reuses the stored connection in that branch, constructing a new one
in the `else` branch.  Returns the new `__connection` and the effect. -/
def get_connection (state : Option PikaConnection) (fresh : PikaConnection) :
    Option PikaConnection × GetConnectionEffect :=
  match state with
  | some conn =>
    if !conn.is_open then (some conn, GetConnectionEffect.reused conn)
    else (some fresh, GetConnectionEffect.created fresh)
  | none => (some fresh, GetConnectionEffect.created fresh)

/-- A parsed inbound message: the raw UTF-8 text when JSON parsing is off,
or the decoded JSON value (kept opaque) when it is on. -/
inductive Message
  | text (s : String)
  | json (v : String)
  deriving DecidableEq, Repr

/-- Abstract result of `json.loads` (external library call): either a
decoded value or a `JSONDecodeError`. -/
inductive JsonResult
  | ok (value : String)
  | decodeError (msg : String)
  deriving DecidableEq, Repr

/-- `Client._parse_incoming_message` (client.py lines 57-68): decode the
body as text; if `parse_json` is off return it; otherwise run `json.loads`
(supplied as the oracle `loads`) and wrap a decode failure into
`InvalidFormatError`. -/
def Client.parse_incoming_message (c : Client) (body : String)
    (loads : String → JsonResult) : Except PyError Message :=
  if !c.parse_json then Except.ok (Message.text body)
  else
    match loads body with
    | JsonResult.ok v => Except.ok (Message.json v)
    | JsonResult.decodeError _ =>
      Except.error (PyError.invalidFormatError
        ("Couldn't decode string as JSON: " ++ body))

/-- Behaviour of the opaque user handler `on_message` on one invocation:
it returns a plain value, returns an awaitable that completes, raises
synchronously, or returns an awaitable that raises when awaited. -/
inductive HandlerOutcome
  | ok
  | okAwait
  | raises (e : PyError)
  | raisesAwait (e : PyError)
  deriving DecidableEq, Repr

/-- Where one inbound dispatch ended up. -/
inductive DispatchResult
  | ignored
  | completed
  | routedToClient (c : Client) (e : PyError) (m : MessageMetadata)
  | routedToDefault (c : Client) (e : PyError) (m : MessageMetadata)
  | loggedAndDropped (e : PyError)
  deriving DecidableEq, Repr

/-- The `except (Exception, KeyboardInterrupt)` block of `task_wrapper`
(client.py lines 88-96): client error handler if set, else
`DefaultParameters.ON_MESSAGE_ERROR` if set, else log and drop.  The
handlers receive `(self, e, metadata)`. -/
def route_error (c : Client) (default_handler : Bool) (e : PyError)
    (metadata : MessageMetadata) : DispatchResult :=
  if c.has_on_message_error then DispatchResult.routedToClient c e metadata
  else if default_handler then DispatchResult.routedToDefault c e metadata
  else DispatchResult.loggedAndDropped e

/-- The `try` body of `task_wrapper` (client.py lines 80-96): parse the
body, invoke the handler, await the result if awaitable; any exception
from any of these is caught and routed by `route_error`. -/
def task_wrapper (c : Client) (loads : String → JsonResult)
    (handler : Message → MessageMetadata → HandlerOutcome)
    (default_handler : Bool) (body : String) (metadata : MessageMetadata) :
    DispatchResult :=
  match c.parse_incoming_message body loads with
  | Except.error e => route_error c default_handler e metadata
  | Except.ok message =>
    match handler message metadata with
    | HandlerOutcome.ok => DispatchResult.completed
    | HandlerOutcome.okAwait => DispatchResult.completed
    | HandlerOutcome.raises e => route_error c default_handler e metadata
    | HandlerOutcome.raisesAwait e => route_error c default_handler e metadata

/-- `Client.on_message_wrapper` (client.py lines 69-96): reads
`self.subscriber_address.queue` for the debug log (an `AttributeError`
when `subscriber_address` is `None`), returns after a debug trace when no
handler is registered, and otherwise schedules `task_wrapper` on the event
loop.  The result of the scheduled task is the `DispatchResult`. -/
def Client.on_message_wrapper (c : Client) (loads : String → JsonResult)
    (handler : Message → MessageMetadata → HandlerOutcome)
    (default_handler : Bool) (body : String) (metadata : MessageMetadata) :
    Except PyError DispatchResult :=
  match c.subscriber_address with
  | none =>
    Except.error (PyError.attributeError "NoneType object has no attribute queue")
  | some _ =>
    if c.has_on_message then
      Except.ok (task_wrapper c loads handler default_handler body metadata)
    else
      Except.ok DispatchResult.ignored

/-- The exception, if any, that message parsing or the handler raises on
one dispatch (spec-side accessor used to state the routing property). -/
def raised_exception (c : Client) (loads : String → JsonResult)
    (handler : Message → MessageMetadata → HandlerOutcome)
    (body : String) (metadata : MessageMetadata) : Option PyError :=
  match c.parse_incoming_message body loads with
  | Except.error e => some e
  | Except.ok message =>
    match handler message metadata with
    | HandlerOutcome.ok => none
    | HandlerOutcome.okAwait => none
    | HandlerOutcome.raises e => some e
    | HandlerOutcome.raisesAwait e => some e

/-- Discriminator for `exchange_declare` operations. -/
def ChannelOp.isExchangeDeclare : ChannelOp → Bool
  | ChannelOp.exchange_declare _ _ => true
  | _ => false

/-- Discriminator for `queue_declare` operations. -/
def ChannelOp.isQueueDeclare : ChannelOp → Bool
  | ChannelOp.queue_declare _ => true
  | _ => false

/-- Discriminator for `queue_bind` operations. -/
def ChannelOp.isQueueBind : ChannelOp → Bool
  | ChannelOp.queue_bind _ _ _ => true
  | _ => false

/-- `check_attributes` only ever touches `routing_key`: queue, exchange and
exchange type are preserved by a successful validation. -/
theorem check_attributes_preserves (a v : Address)
    (h : a.check_attributes = Except.ok v) :
    v.queue = a.queue ∧ v.exchange = a.exchange ∧
    v.exchange_type = a.exchange_type := by
  unfold Address.check_attributes at h
  cases hq : a.queue with
  | none =>
    rw [hq] at h
    exact Except.noConfusion h
  | some q =>
    rw [hq] at h
    cases hr : a.routing_key with
    | none =>
      rw [hr] at h
      injection h with h
      rw [← h]
      exact ⟨rfl, rfl, rfl⟩
    | some r =>
      rw [hr] at h
      injection h with h
      rw [← h]
      exact ⟨hq, rfl, rfl⟩

/-- C4 (counterexample): the claim says an AddressSpec with an *empty*
queue fails validation, but `check_attributes` only tests `queue is None`:
with `queue = ""` it succeeds (and copies the empty string into
`routing_key`) instead of raising. -/
theorem C4_empty_queue_passes :
    Address.check_attributes
      { queue := some "", routing_key := none, exchange := "",
        exchange_type := ExchangeType.direct }
      = Except.ok
          { queue := some "", routing_key := some "", exchange := "",
            exchange_type := ExchangeType.direct } := rfl

/-- C4 (amended): `check_attributes` fails with the missing-queue
`AttributeError` exactly when the queue field is absent (`None`); any
string value, the empty string included, passes validation. -/
theorem C4_queue_validation (a : Address) :
    (a.queue = none →
      a.check_attributes =
        Except.error (PyError.attributeError "Missing `queue` attribute")) ∧
    (∀ q, a.queue = some q → ∃ v, a.check_attributes = Except.ok v) := by
  constructor
  · intro h
    unfold Address.check_attributes
    simp [h]
  · intro q h
    unfold Address.check_attributes
    cases hr : a.routing_key <;> simp [h, hr]

/-- C4 witness: evaluation of the amended claim at a concrete absent-queue
address. -/
theorem C4_queue_validation_witness :
    Address.check_attributes
      { queue := none, routing_key := none, exchange := "",
        exchange_type := ExchangeType.direct }
      = Except.error (PyError.attributeError "Missing `queue` attribute") :=
  (C4_queue_validation
    { queue := none, routing_key := none, exchange := "",
      exchange_type := ExchangeType.direct }).1 rfl

/-- C5: for an address with a queue set, a successful `check_attributes`
leaves an unset `routing_key` equal to the queue, and leaves the whole
address unchanged when `routing_key` was already set. -/
theorem C5_routing_key_default (a : Address) (q : String)
    (hq : a.queue = some q) :
    (a.routing_key = none →
      ∃ v, a.check_attributes = Except.ok v ∧
        v.routing_key = v.queue ∧ v.queue = a.queue) ∧
    (∀ r, a.routing_key = some r → a.check_attributes = Except.ok a) := by
  constructor
  · intro hr
    unfold Address.check_attributes
    simp [hq, hr]
  · intro r hr
    unfold Address.check_attributes
    simp [hq, hr]

/-- C5 witness: evaluation at a concrete address with unset routing key. -/
theorem C5_routing_key_default_witness :
    ∃ v, Address.check_attributes
        { queue := some "q1", routing_key := none, exchange := "",
          exchange_type := ExchangeType.direct } = Except.ok v ∧
      v.routing_key = v.queue ∧ v.queue = some "q1" :=
  (C5_routing_key_default
    { queue := some "q1", routing_key := none, exchange := "",
      exchange_type := ExchangeType.direct } "q1" rfl).1 rfl

/-- C6: `publish` on a client with no publisher address raises
`MissingPublisherAddressError` and issues no channel operation at all
(empty trace), for every message. -/
theorem C6_publish_without_address (c : Client) (message : String)
    (h : c.publisher_address = none) :
    c.publish message =
      ([], some (PyError.missingPublisherAddressError
        "Cannot publish messages without a publisher address")) := by
  unfold Client.publish
  simp [h]

/-- C6 witness: evaluation at a concrete address-less client. -/
theorem C6_publish_without_address_witness :
    Client.publish
      { subscriber_address := none, publisher_address := none,
        has_on_message := false, has_on_message_error := false,
        parse_json := true, prefetch_count := 1 } "hello" =
      ([], some (PyError.missingPublisherAddressError
        "Cannot publish messages without a publisher address")) :=
  C6_publish_without_address
    { subscriber_address := none, publisher_address := none,
      has_on_message := false, has_on_message_error := false,
      parse_json := true, prefetch_count := 1 } "hello" rfl

/-- C10: on a publisher-only client (publisher address set, subscriber
address absent) `publish` evaluates `self.subscriber_address.queue` for
its debug log and raises `AttributeError` before `basic_publish` is ever
reached: the trace is empty and the call fails, for every message. -/
theorem C10_publisher_only_cannot_publish (c : Client) (message : String)
    (pa : Address) (hp : c.publisher_address = some pa)
    (hs : c.subscriber_address = none) :
    c.publish message =
      ([], some (PyError.attributeError
        "NoneType object has no attribute queue")) := by
  unfold Client.publish
  simp [hp, hs]

/-- C10 witness: evaluation at a concrete publisher-only client. -/
theorem C10_publisher_only_cannot_publish_witness :
    Client.publish
      { subscriber_address := none,
        publisher_address := some
          { queue := some "q1", routing_key := some "q1", exchange := "",
            exchange_type := ExchangeType.direct },
        has_on_message := false, has_on_message_error := false,
        parse_json := true, prefetch_count := 1 } "hello" =
      ([], some (PyError.attributeError
        "NoneType object has no attribute queue")) :=
  C10_publisher_only_cannot_publish
    { subscriber_address := none,
      publisher_address := some
        { queue := some "q1", routing_key := some "q1", exchange := "",
          exchange_type := ExchangeType.direct },
      has_on_message := false, has_on_message_error := false,
      parse_json := true, prefetch_count := 1 } "hello"
    { queue := some "q1", routing_key := some "q1", exchange := "",
      exchange_type := ExchangeType.direct } rfl rfl

/-- C8: for every inbound delivery, the consumer callback's trace places
the broker acknowledgment (with the delivery tag) at a strictly earlier
position than the dispatch of body and metadata to the client. -/
theorem C8_ack_before_dispatch (bd : BasicDeliver) (props : BasicProperties)
    (body : String) :
    ∃ i j, i < j ∧
      (acknowledge_and_forward bd props body).get? i =
        some (ConsumerAction.ack bd.delivery_tag) ∧
      (acknowledge_and_forward bd props body).get? j =
        some (ConsumerAction.dispatch body
          { basic_deliver := bd, properties := props }) :=
  ⟨0, 1, Nat.zero_lt_one, rfl, rfl⟩

/-- Unfolding of the setup cascade on a validated address. -/
theorem setup_address_ops_some (a : Address) (is_subscriber : Bool)
    (prefetch_count : Nat) (v : Address)
    (hok : a.check_attributes = Except.ok v) :
    setup_address_ops (some a) is_subscriber prefetch_count =
      Except.ok
        ((if v.is_default_exchange then []
          else [ChannelOp.exchange_declare v.exchange v.exchange_type])
         ++ [ChannelOp.queue_declare v.queue]
         ++ (if v.is_default_exchange then []
             else [ChannelOp.queue_bind v.queue v.exchange v.routing_key])
         ++ (if is_subscriber then
               [ChannelOp.basic_qos prefetch_count, ChannelOp.basic_consume v.queue]
             else [])) := by
  simp only [setup_address_ops]
  rw [hok]

/-- C7: for every validated address, the setup cascade declares the queue
exactly once; on the default exchange it issues no exchange-declare and no
queue-bind, and on a non-default exchange it issues exactly one of each. -/
theorem C7_exchange_and_bind_policy (a : Address) (is_subscriber : Bool)
    (prefetch_count : Nat) (v : Address)
    (hok : a.check_attributes = Except.ok v) :
    ∃ ops, setup_address_ops (some a) is_subscriber prefetch_count =
        Except.ok ops ∧
      ops.countP ChannelOp.isQueueDeclare = 1 ∧
      (a.exchange = "" →
        ops.countP ChannelOp.isExchangeDeclare = 0 ∧
        ops.countP ChannelOp.isQueueBind = 0) ∧
      (a.exchange ≠ "" →
        ops.countP ChannelOp.isExchangeDeclare = 1 ∧
        ops.countP ChannelOp.isQueueBind = 1) := by
  obtain ⟨hq, hex, hext⟩ := check_attributes_preserves a v hok
  refine ⟨_, setup_address_ops_some a is_subscriber prefetch_count v hok,
    ?_, ?_, ?_⟩
  · by_cases hde : a.exchange = "" <;> cases is_subscriber <;>
      simp [Address.is_default_exchange, hex, hde, List.countP_append,
        List.countP_cons, ChannelOp.isQueueDeclare, ChannelOp.isExchangeDeclare,
        ChannelOp.isQueueBind]
  · intro hde
    cases is_subscriber <;>
      simp [Address.is_default_exchange, hex, hde, List.countP_append,
        List.countP_cons, ChannelOp.isQueueDeclare, ChannelOp.isExchangeDeclare,
        ChannelOp.isQueueBind]
  · intro hde
    cases is_subscriber <;>
      simp [Address.is_default_exchange, hex, hde, List.countP_append,
        List.countP_cons, ChannelOp.isQueueDeclare, ChannelOp.isExchangeDeclare,
        ChannelOp.isQueueBind]

/-- C7 witness: evaluation at a concrete subscriber address on the default
exchange. -/
theorem C7_exchange_and_bind_policy_witness :
    ∃ ops, setup_address_ops
        (some { queue := some "q1", routing_key := none, exchange := "",
                exchange_type := ExchangeType.direct }) true 1 = Except.ok ops ∧
      ops.countP ChannelOp.isQueueDeclare = 1 ∧
      ((("" : String) = "") →
        ops.countP ChannelOp.isExchangeDeclare = 0 ∧
        ops.countP ChannelOp.isQueueBind = 0) ∧
      ((("" : String) ≠ "") →
        ops.countP ChannelOp.isExchangeDeclare = 1 ∧
        ops.countP ChannelOp.isQueueBind = 1) :=
  C7_exchange_and_bind_policy
    { queue := some "q1", routing_key := none, exchange := "",
      exchange_type := ExchangeType.direct } true 1
    { queue := some "q1", routing_key := some "q1", exchange := "",
      exchange_type := ExchangeType.direct } rfl

/-- Running completion events while the counter stays strictly below the
tag count only increments the counter: no close operation is emitted. -/
theorem run_completions_below (events : List String) (tags : List String)
    (c : Nat) (o : List ChannelOp) (h : c + events.length < tags.length) :
    run_completions
        { consumer_tags := tags, consumer_tags_closed := c, ops := o } events =
      { consumer_tags := tags, consumer_tags_closed := c + events.length,
        ops := o } := by
  induction events generalizing c with
  | nil => simp [run_completions]
  | cons e rest ih =>
    have hlt : c + 1 < tags.length := by
      simp only [List.length_cons] at h
      omega
    have hs : close_channel_if_all_clients_stopped
        { consumer_tags := tags, consumer_tags_closed := c, ops := o } =
        { consumer_tags := tags, consumer_tags_closed := c + 1, ops := o } := by
      simp [close_channel_if_all_clients_stopped, hlt]
    show run_completions (close_channel_if_all_clients_stopped
      { consumer_tags := tags, consumer_tags_closed := c, ops := o }) rest = _
    rw [hs, ih (c + 1) (by simp only [List.length_cons] at h; omega)]
    simp only [List.length_cons]
    congr 1
    omega

/-- Running exactly as many completion events as are needed to bring the
counter up to the tag count emits the close sequence exactly once, at the
last event. -/
theorem run_completions_join (rest : List String) (e : String)
    (tags : List String) (c : Nat) (o : List ChannelOp)
    (h : c + rest.length + 1 = tags.length) :
    run_completions
        { consumer_tags := tags, consumer_tags_closed := c, ops := o }
        (e :: rest) =
      { consumer_tags := tags, consumer_tags_closed := tags.length,
        ops := o ++ close_sequence } := by
  induction rest generalizing c e with
  | nil =>
    have hc : c + 1 = tags.length := by simpa using h
    have hs : close_channel_if_all_clients_stopped
        { consumer_tags := tags, consumer_tags_closed := c, ops := o } =
        { consumer_tags := tags, consumer_tags_closed := tags.length,
          ops := o ++ close_sequence } := by
      simp [close_channel_if_all_clients_stopped, hc]
    show run_completions (close_channel_if_all_clients_stopped
      { consumer_tags := tags, consumer_tags_closed := c, ops := o }) [] = _
    rw [hs]
    rfl
  | cons e2 rest2 ih =>
    have hlt : c + 1 < tags.length := by
      simp only [List.length_cons] at h
      omega
    have hs : close_channel_if_all_clients_stopped
        { consumer_tags := tags, consumer_tags_closed := c, ops := o } =
        { consumer_tags := tags, consumer_tags_closed := c + 1, ops := o } := by
      simp [close_channel_if_all_clients_stopped, hlt]
    show run_completions (close_channel_if_all_clients_stopped
      { consumer_tags := tags, consumer_tags_closed := c, ops := o })
      (e2 :: rest2) = _
    rw [hs]
    exact ih e2 (c + 1) (by simp only [List.length_cons] at h ⊢; omega)

/-- C1: teardown issues exactly one cancel per recorded tag; for any
arrival order of completion events, the close sequence (channel close,
connection close, loop stop) is emitted exactly once — the emitted trace
is exactly one copy of the sequence — and only once all of the tag count's
completions have been observed: after any strictly smaller number of
completions nothing has been closed. -/
theorem C1_teardown_close_once (tags events : List String)
    (hN : 1 ≤ tags.length) :
    (tear_down_cancels tags).length = tags.length ∧
    (events.length = tags.length →
      (run_completions (initial_teardown_state tags) events).ops =
        close_sequence) ∧
    (events.length < tags.length →
      (run_completions (initial_teardown_state tags) events).ops = []) := by
  refine ⟨List.length_map _ _, ?_, ?_⟩
  · intro he
    cases events with
    | nil =>
      simp only [List.length_nil] at he
      omega
    | cons e rest =>
      have hr := run_completions_join rest e tags 0 []
        (by simp only [List.length_cons] at he; omega)
      unfold initial_teardown_state
      rw [hr]
      simp
  · intro he
    have hr := run_completions_below events tags 0 [] (by omega)
    unfold initial_teardown_state
    rw [hr]

/-- C1 witness: one recorded tag, one completion event. -/
theorem C1_teardown_close_once_witness :
    (run_completions (initial_teardown_state ["t1"]) ["t1"]).ops =
      close_sequence :=
  (C1_teardown_close_once ["t1"] ["t1"] (by decide)).2.1 rfl

/-- The three-tier routing of the `except` block of `task_wrapper`, as a
case analysis: client handler first, then the process-wide default, then
log-and-drop; the handlers receive the client, the exception and the
metadata unchanged. -/
theorem route_error_cases (c : Client) (default_handler : Bool) (e : PyError)
    (metadata : MessageMetadata) :
    (c.has_on_message_error = true →
      route_error c default_handler e metadata =
        DispatchResult.routedToClient c e metadata) ∧
    (c.has_on_message_error = false → default_handler = true →
      route_error c default_handler e metadata =
        DispatchResult.routedToDefault c e metadata) ∧
    (c.has_on_message_error = false → default_handler = false →
      route_error c default_handler e metadata =
        DispatchResult.loggedAndDropped e) := by
  refine ⟨?_, ?_, ?_⟩
  · intro h
    simp [route_error, h]
  · intro h1 h2
    simp [route_error, h1, h2]
  · intro h1 h2
    simp [route_error, h1, h2]

/-- When parsing or the handler raises, `task_wrapper` ends in the
`except` block: its result is exactly `route_error` on that exception. -/
theorem task_wrapper_raised (c : Client) (loads : String → JsonResult)
    (handler : Message → MessageMetadata → HandlerOutcome)
    (default_handler : Bool) (body : String) (metadata : MessageMetadata)
    (e : PyError)
    (he : raised_exception c loads handler body metadata = some e) :
    task_wrapper c loads handler default_handler body metadata =
      route_error c default_handler e metadata := by
  unfold raised_exception at he
  unfold task_wrapper
  revert he
  cases c.parse_incoming_message body loads with
  | error e2 =>
    intro he
    exact congrArg (fun x => route_error c default_handler x metadata)
      (Option.some.inj he)
  | ok message =>
    show (match handler message metadata with
        | HandlerOutcome.ok => none
        | HandlerOutcome.okAwait => none
        | HandlerOutcome.raises e2 => some e2
        | HandlerOutcome.raisesAwait e2 => some e2) = some e →
      (match handler message metadata with
        | HandlerOutcome.ok => DispatchResult.completed
        | HandlerOutcome.okAwait => DispatchResult.completed
        | HandlerOutcome.raises e2 => route_error c default_handler e2 metadata
        | HandlerOutcome.raisesAwait e2 =>
          route_error c default_handler e2 metadata) =
      route_error c default_handler e metadata
    cases handler message metadata with
    | ok =>
      intro he
      exact Option.noConfusion he
    | okAwait =>
      intro he
      exact Option.noConfusion he
    | raises e2 =>
      intro he
      exact congrArg (fun x => route_error c default_handler x metadata)
        (Option.some.inj he)
    | raisesAwait e2 =>
      intro he
      exact congrArg (fun x => route_error c default_handler x metadata)
        (Option.some.inj he)

/-- C9: for a client with a subscriber address and a registered handler,
the dispatch path never raises (the result is always `Except.ok`), and any
exception raised by parsing or by the handler (synchronously or from its
awaited result) is routed to the client's own error handler if set, else
the process-wide default if registered, else logged and dropped — with the
originating client, the exception, and the very metadata that was passed
to the handler. -/
theorem C9_handler_error_routing (c : Client) (sa : Address)
    (loads : String → JsonResult)
    (handler : Message → MessageMetadata → HandlerOutcome)
    (default_handler : Bool) (body : String) (metadata : MessageMetadata)
    (hsub : c.subscriber_address = some sa)
    (hmsg : c.has_on_message = true) :
    ∃ r, c.on_message_wrapper loads handler default_handler body metadata =
        Except.ok r ∧
      ∀ e, raised_exception c loads handler body metadata = some e →
        (c.has_on_message_error = true →
          r = DispatchResult.routedToClient c e metadata) ∧
        (c.has_on_message_error = false → default_handler = true →
          r = DispatchResult.routedToDefault c e metadata) ∧
        (c.has_on_message_error = false → default_handler = false →
          r = DispatchResult.loggedAndDropped e) := by
  refine ⟨task_wrapper c loads handler default_handler body metadata, ?_, ?_⟩
  · unfold Client.on_message_wrapper
    rw [hsub]
    simp [hmsg]
  · intro e he
    rw [task_wrapper_raised c loads handler default_handler body metadata e he]
    exact route_error_cases c default_handler e metadata

/-- A concrete subscriber-only client used to evaluate the dispatch path. -/
def sample_client : Client :=
  { subscriber_address := some
      { queue := some "q1", routing_key := some "q1", exchange := "",
        exchange_type := ExchangeType.direct },
    publisher_address := none, has_on_message := true,
    has_on_message_error := false, parse_json := true, prefetch_count := 1 }

/-- Concrete metadata for one inbound delivery. -/
def sample_metadata : MessageMetadata :=
  { basic_deliver := { delivery_tag := 1 }, properties := {} }

/-- C9 witness: evaluation on a concrete client whose body fails JSON
decoding, with no client error handler and no default handler. -/
theorem C9_handler_error_routing_witness :
    ∃ r, sample_client.on_message_wrapper
        (fun _ => JsonResult.decodeError "bad")
        (fun _ _ => HandlerOutcome.ok) false "nope" sample_metadata =
        Except.ok r ∧
      ∀ e, raised_exception sample_client
          (fun _ => JsonResult.decodeError "bad")
          (fun _ _ => HandlerOutcome.ok) "nope" sample_metadata = some e →
        (sample_client.has_on_message_error = true →
          r = DispatchResult.routedToClient sample_client e sample_metadata) ∧
        (sample_client.has_on_message_error = false → false = true →
          r = DispatchResult.routedToDefault sample_client e sample_metadata) ∧
        (sample_client.has_on_message_error = false → false = false →
          r = DispatchResult.loggedAndDropped e) :=
  C9_handler_error_routing sample_client
    { queue := some "q1", routing_key := some "q1", exchange := "",
      exchange_type := ExchangeType.direct }
    (fun _ => JsonResult.decodeError "bad") (fun _ _ => HandlerOutcome.ok)
    false "nope" sample_metadata rfl rfl

/-- C3 (code behaviour at the failing input): with an existing *open*
connection, `get_connection` does not reuse it — it constructs a brand-new
connection object and replaces the stored one.  (The source condition
`is not None and not is_open` is inverted relative to `get_channel`.) -/
theorem C3_open_connection_not_reused :
    get_connection (some { id := 0, is_open := true })
        { id := 1, is_open := false } =
      (some { id := 1, is_open := false },
       GetConnectionEffect.created { id := 1, is_open := false }) := rfl

/-- C2 (code behaviour at the failing input): with zero recorded consumer
tags, `tear_down` issues no cancel request, so no completion event is ever
scheduled and the close sequence (channel close, connection close, loop
stop) never runs. -/
theorem C2_empty_teardown_never_closes :
    tear_down_cancels [] = [] ∧
    (run_completions (initial_teardown_state []) []).ops = [] :=
  ⟨rfl, rfl⟩

end TPF
